import Mathlib

/-!
Verification of the email-verifier core: a shallow embedding of the
repository's `Verify` orchestrator, `calculateReachable` classifier,
`CheckMX`, `CheckGravatar` and `TopLevelDomainExists`, with the external
collaborators (syntax parser, classification lists, DNS resolver, SMTP
probe engine, HTTP) abstracted as an environment of oracles.
-/

namespace EmailVerifier

/-- The `Syntax` record produced by the external address parser (source:
`ParseAddress`, a collaborator outside the orchestrator core). -/
structure SyntaxInfo where
  Username : String
  Domain : String
  Valid : Bool
  deriving Repr, DecidableEq

/-- The `SMTP` record: durable summary of the SMTP probe (source `SMTP`). -/
structure SMTP where
  HostExists : Bool
  FullInbox : Bool
  CatchAll : Bool
  Deliverable : Bool
  Disabled : Bool
  deriving Repr, DecidableEq

instance : Inhabited SMTP := ⟨⟨false, false, false, false, false⟩⟩

/-- The `Gravatar` record (source file holding `CheckGravatar`). -/
structure Gravatar where
  HasGravatar : Bool
  GravatarUrl : String
  deriving Repr, DecidableEq

/-- One DNS MX record: `net.MX` is a host plus a 16-bit preference. -/
structure MXRecord where
  Host : String
  Pref : Nat
  deriving Repr, DecidableEq

/-- The `Mx` record returned by `CheckMX`. -/
structure Mx where
  HasMXRecord : Bool
  Records : List MXRecord
  deriving Repr, DecidableEq

/-- The `Result` record of a `Verify` call.  The field `Syn` embeds the
source's field named `Syntax`. -/
structure Result where
  Email : String
  Reachable : String
  Syn : SyntaxInfo
  SMTP : Option SMTP
  Gravatar : Option Gravatar
  Suggestion : String
  Disposable : Bool
  RoleAccount : Bool
  Free : Bool
  HasMxRecords : Bool
  TLDExists : Bool
  deriving Repr, DecidableEq

def reachableYes : String := "yes"
def reachableNo : String := "no"
def reachableUnknown : String := "unknown"

/-- The error string Go's `net` resolver produces both when DNS resolution
fails with NXDOMAIN and when the answer section carries no record of the
requested type (the repository's own `TestCheckNoMxOK` expects it for a
domain advertising no MX records). -/
def ErrNoSuchHost : String := "no such host"

/-- Outcome of `net.DefaultResolver.LookupMX` for one domain, mirroring the
Go resolver's observable behavior: an answered query yields the (possibly
reordered) records and no error; a domain that resolves but advertises zero
mail exchangers yields an empty list together with the "no such host" error
(the resolver reports NODATA the same way as NXDOMAIN); a failed resolution
yields an empty list and the lookup error. -/
inductive LookupOutcome where
  | answered (records : List MXRecord)
  | noMailExchanger
  | hostLookupFailed (e : String)
  deriving Repr, DecidableEq

/-- The `(mx, err)` pair `LookupMX` hands back to `CheckMX`. -/
def LookupOutcome.asPair : LookupOutcome → List MXRecord × Option String
  | .answered rs => (rs, none)
  | .noMailExchanger => ([], some ErrNoSuchHost)
  | .hostLookupFailed e => ([], some e)

/-- Environment of external collaborators and network oracles consumed by
the orchestrator.  `parseAddress`, `isFreeDomain`, `isRoleAccount`,
`isDisposable`, `suggest`, `domainToASCII`, `trimLower`, the TLD tables and
the enabled SMTP probe are code of the repository (or of its dependencies)
that is not among the provided source files, or pure I/O; each is
abstracted here as an arbitrary function, so every theorem below holds for
every possible behavior of these collaborators. -/
structure Env where
  trimLower : String → String
  parseAddress : String → SyntaxInfo
  isFreeDomain : String → Bool
  isRoleAccount : String → Bool
  isDisposable : String → Bool
  domainToASCII : String → String
  runesOf : String → List Nat
  genericTLDs : List (List Nat)
  countryTLDs : List (List Nat)
  lookupMX : String → LookupOutcome
  smtpOutcome : String → String → Except String SMTP
  gravatarOutcome : String → Except String Gravatar
  suggest : String → String

/-- Verifier configuration flags, in source order (`Verifier` struct). -/
structure Config where
  mxCheckEnabled : Bool
  smtpCheckEnabled : Bool
  catchAllCheckEnabled : Bool
  domainSuggestEnabled : Bool
  gravatarCheckEnabled : Bool
  TopLevelDomainDisabled : Bool
  deriving Repr, DecidableEq

/-- Source `enabledOptions`: counts the enabled mx, smtp, gravatar and
domain-suggestion checks. -/
def enabledOptions (v : Config) : Nat :=
  (if v.mxCheckEnabled then 1 else 0) +
  (if v.smtpCheckEnabled then 1 else 0) +
  (if v.gravatarCheckEnabled then 1 else 0) +
  (if v.domainSuggestEnabled then 1 else 0)

/-! ## TopLevelDomainExists (src/tld_check.go)

Go strings are sequences of runes here modelled as natural-number code
points; `strings.ToLower` maps each rune independently through
`unicode.ToLower`.  `goToLower` embeds the ASCII portion of that table; the
property of `unicode.ToLower` every proof below relies on is only that it
fixes `'.'` (code point 46) and maps no other rune to it, which holds of
the full Unicode table as well. -/

def dotRune : Nat := 46

/-- Rune-wise lowercasing, the ASCII fragment of `unicode.ToLower`. -/
def goToLower (r : Nat) : Nat := if 65 ≤ r ∧ r ≤ 90 then r + 32 else r

/-- The text strictly after the last `'.'`, or `none` when no dot occurs:
`strings.LastIndex(email, ".")` followed by the slice `email[lastDot+1:]`. -/
def textAfterLastDot : List Nat → Option (List Nat)
  | [] => none
  | c :: rest =>
    match textAfterLastDot rest with
    | some t => some t
    | none => if c = dotRune then some rest else none

/-- Source `TopLevelDomainExists`: lowercase the whole string, take the text
after the last dot, and test membership in the generic-TLD table or the
country-code-TLD table (the two tables are metadata absent from the
provided sources, so they are parameters here). -/
def TopLevelDomainExists (generic country : List (List Nat)) (email : List Nat) : Bool :=
  match textAfterLastDot (email.map goToLower) with
  | none => false
  | some tld => generic.contains tld || country.contains tld

/-! ## CheckMX (mx source file) -/

/-- Source `CheckMX`: when the MX check is disabled return an empty,
non-error `Mx`; otherwise run `LookupMX` on the ASCII form of the domain,
fail with the lookup error when it is non-nil and no records came back, and
otherwise report whether at least one record exists. -/
def CheckMX (mxCheckEnabled : Bool) (env : Env) (domain : String) : Except String Mx :=
  if !mxCheckEnabled then .ok { HasMXRecord := false, Records := [] }
  else
    match (env.lookupMX (env.domainToASCII domain)).asPair with
    | (mx, some err) =>
      if mx.length = 0 then .error err
      else .ok { HasMXRecord := decide (mx.length > 0), Records := mx }
    | (mx, none) => .ok { HasMXRecord := decide (mx.length > 0), Records := mx }

/-! ## CheckGravatar (gravatar source file) -/

/-- Source `CheckGravatar`: when the gravatar check is disabled return
`nil, nil` before any hashing or HTTP work; the enabled branch performs an
HTTP request whose outcome (a `Gravatar` record or an error) is the
environment oracle. -/
def CheckGravatar (gravatarCheckEnabled : Bool) (env : Env) (email : String) :
    Option Gravatar × Option String :=
  if !gravatarCheckEnabled then (none, none)
  else
    match env.gravatarOutcome email with
    | .ok g => (some g, none)
    | .error e => (none, some e)

/-! ## CheckSMTP -/

/-- Modelled from the spec: `CheckSMTP` (the SMTP probe engine's source file
is not among the provided sources).  Per §3 of the spec the SMTP result is
absent when SMTP checking is disabled — and the repository's test
`TestCheckEmail_DisabledSMTPCheck` expects `SMTP: nil` with a nil error in
that configuration — so the disabled branch returns `nil, nil`; the enabled
branch drives the network probe, abstracted as the environment oracle. -/
def CheckSMTP (smtpCheckEnabled : Bool) (env : Env) (domain username : String) :
    Option SMTP × Option String :=
  if !smtpCheckEnabled then (none, none)
  else
    match env.smtpOutcome domain username with
    | .ok s => (some s, none)
    | .error e => (none, some e)

/-! ## calculateReachable -/

/-- Source `calculateReachable`.  The Go method receives a possibly-nil
`*SMTP`; the pointer is nil only when the SMTP check is disabled, in which
case the first guard returns before any field is read, so taking a record
argument loses nothing (the call site in `Verify` substitutes the zero
record for nil). -/
def calculateReachable (smtpCheckEnabled : Bool) (s : SMTP) : String :=
  if !smtpCheckEnabled then reachableUnknown
  else if s.Deliverable then reachableYes
  else if s.CatchAll then reachableUnknown
  else reachableNo

/-! ## The four check closures passed to the runner

Each closure is modelled as the pair of its effect on the shared `Result`
(the fields it assigns on success; the identity when it returns early with
an error) and the error it returns.  The four closures write pairwise
disjoint fields, so their state effects commute (proved below), which is
why every interleaving of the concurrent runner produces the same final
record. -/

def VTask := (Result → Result) × Option String

/-- The `CheckMX` closure of `Verify`: on error, wrap it; on success assign
`ret.HasMxRecords`. -/
def mxTask (v : Config) (env : Env) (domain : String) : VTask :=
  match CheckMX v.mxCheckEnabled env domain with
  | .error e => (id, some ("CheckMX failed: " ++ e))
  | .ok mx => (fun r => { r with HasMxRecords := mx.HasMXRecord }, none)

/-- The `CheckSMTP` closure of `Verify`: on error, wrap it; on success
assign `ret.SMTP` and `ret.Reachable` (the zero record stands in for a nil
pointer, unread because `calculateReachable` guards on the flag first). -/
def smtpTask (v : Config) (env : Env) (domain username : String) : VTask :=
  match CheckSMTP v.smtpCheckEnabled env domain username with
  | (_, some e) => (id, some ("CheckSMTP failed: " ++ e))
  | (s, none) =>
    (fun r => { r with SMTP := s,
                       Reachable := calculateReachable v.smtpCheckEnabled (s.getD default) },
     none)

/-- The `CheckGravatar` closure of `Verify`. -/
def gravatarTask (v : Config) (env : Env) (email : String) : VTask :=
  match CheckGravatar v.gravatarCheckEnabled env email with
  | (_, some e) => (id, some ("CheckGravatar failed: " ++ e))
  | (g, none) => (fun r => { r with Gravatar := g }, none)

/-- The domain-suggestion closure of `Verify`: assigns `ret.Suggestion` when
enabled, never fails. -/
def suggestTask (v : Config) (env : Env) (domain : String) : VTask :=
  (fun r => if v.domainSuggestEnabled then { r with Suggestion := env.suggest domain } else r,
   none)

/-- The four closures in the order `Verify` hands them to the runner. -/
def verifyTasks (v : Config) (env : Env) (domain username email : String) : List VTask :=
  [mxTask v env domain, smtpTask v env domain username,
   gravatarTask v env email, suggestTask v env domain]

/-! ## The two runners -/

/-- The `noGroup` runner: `Go` runs each closure immediately in the calling
goroutine, `errors.Join`-ing every non-nil error in call order; `Wait`
returns the join.  The composite error is modelled as the list of the
individual error messages, the empty list standing for a nil error. -/
def runSeq (tasks : List VTask) (r : Result) : Result × List String :=
  (tasks.foldl (fun a t => t.1 a) r, tasks.filterMap (fun t => t.2))

/-- The `errgroup.WithContext` runner: every closure runs to completion
before `Wait` returns; the closures assign pairwise disjoint fields of the
shared record (commutation is proved in `mx_smtp_comm` and friends), so the
final record is the same for every interleaving and is taken in program
order, while `Wait` returns only the first non-nil error in completion
order — `order` is the scheduler-chosen completion permutation. -/
def runConc (tasks : List VTask) (order : List Nat) (r : Result) : Result × List String :=
  (tasks.foldl (fun a t => t.1 a) r,
   ((order.filterMap fun i => tasks.get? i).filterMap (fun t => t.2)).take 1)

/-! ## Verify -/

/-- The tail of `Verify` from the disposable short-circuit on: skip all
checks for a disposable domain, otherwise run the four check closures under
the runner selected by `useConc`, returning the (always non-nil) result
alongside the runner's error. -/
def verifyRest (useConc : Bool) (v : Config) (env : Env) (order : List Nat)
    (domain username email : String) (ret : Result) : Option Result × List String :=
  if ret.Disposable then (some ret, [])
  else
    let tasks := verifyTasks v env domain username email
    let p := if useConc then runConc tasks order ret else runSeq tasks ret
    (some p.1, p.2)

/-- The address after `Verify`'s initial `trimLower` normalization. -/
def normEmail (env : Env) (email : String) : String := env.trimLower email

/-- The parsed syntax of the normalized address (source local `syntax`). -/
def synOf (env : Env) (email : String) : SyntaxInfo := env.parseAddress (env.trimLower email)

/-- The ASCII (IDNA) form of the parsed domain (source local `domainIDNA`). -/
def idnaOf (env : Env) (email : String) : String := env.domainToASCII (synOf env email).Domain

/-- `Verify`'s `ret` right after the syntax fields are filled in: zero
record plus the normalized email, `unknown` reachability, and the parse. -/
def initResult (env : Env) (email : String) : Result :=
  { Email := normEmail env email, Reachable := reachableUnknown, Syn := synOf env email,
    SMTP := none, Gravatar := none, Suggestion := "", Disposable := false,
    RoleAccount := false, Free := false, HasMxRecords := false, TLDExists := false }

/-- `Verify`'s `ret` after the free/role/disposable classification flags. -/
def classifiedResult (env : Env) (email : String) : Result :=
  { initResult env email with
      Free := env.isFreeDomain (synOf env email).Domain,
      RoleAccount := env.isRoleAccount (synOf env email).Username,
      Disposable := env.isDisposable (synOf env email).Domain }

/-- All check failures of one `Verify` call, in program order, as the
`noGroup` runner would join them. -/
def allFailures (v : Config) (env : Env) (email : String) : List String :=
  (verifyTasks v env (synOf env email).Domain (synOf env email).Username
    (normEmail env email)).filterMap (fun t => t.2)

/-- Source `Verify`, parameterized by the runner choice (`Verify` itself
selects it from `enabledOptions`, see below): normalize the address, parse
it and return the syntax-only result on invalid syntax; populate the
classification flags; fail the whole call when the TLD check is enabled and
the ASCII domain's TLD is unknown (the Go error `fmt.Errorf("TLD domain %q
does not exist", ...)` is transcribed with plain quotes, which is what `%q`
prints for these domains); mark `TLDExists` when the check ran and passed;
then continue with `verifyRest`. -/
def VerifyWith (useConc : Bool) (v : Config) (env : Env) (order : List Nat)
    (email : String) : Option Result × List String :=
  if !(synOf env email).Valid then (some (initResult env email), [])
  else if v.TopLevelDomainDisabled then
    verifyRest useConc v env order (synOf env email).Domain (synOf env email).Username
      (normEmail env email) (classifiedResult env email)
  else if TopLevelDomainExists env.genericTLDs env.countryTLDs (env.runesOf (idnaOf env email)) then
    verifyRest useConc v env order (synOf env email).Domain (synOf env email).Username
      (normEmail env email) { classifiedResult env email with TLDExists := true }
  else
    (none, ["TLD domain \"" ++ idnaOf env email ++ "\" does not exist"])

/-- Source `Verify`: goroutines are only started when more than one check is
enabled; otherwise the `noGroup` sequential runner is used. -/
def Verify (v : Config) (env : Env) (order : List Nat) (email : String) :
    Option Result × List String :=
  VerifyWith (decide (enabledOptions v > 1)) v env order email

/-! ## Lemmas about the TLD check -/

lemma goToLower_eq_dot (r : Nat) : goToLower r = dotRune ↔ r = dotRune := by
  unfold goToLower dotRune
  split <;> omega

lemma textAfterLastDot_eq_none (s : List Nat) :
    textAfterLastDot s = none ↔ dotRune ∉ s := by
  induction s with
  | nil => simp [textAfterLastDot]
  | cons c rest ih =>
    simp only [textAfterLastDot, List.mem_cons]
    cases h : textAfterLastDot rest with
    | some t =>
      have hmem : dotRune ∈ rest := by
        by_contra hn
        rw [ih.mpr hn] at h
        exact Option.noConfusion h
      simp [hmem]
    | none =>
      have hni : dotRune ∉ rest := ih.mp h
      by_cases hc : c = dotRune
      · simp [hc]
      · have hnd : dotRune ≠ c := fun hd => hc hd.symm
        simp [hc, hni, hnd]

lemma textAfterLastDot_map_goToLower (s : List Nat) :
    textAfterLastDot (s.map goToLower) = (textAfterLastDot s).map (List.map goToLower) := by
  induction s with
  | nil => simp [textAfterLastDot]
  | cons c rest ih =>
    simp only [List.map_cons, textAfterLastDot, ih]
    cases h : textAfterLastDot rest with
    | some t => simp
    | none =>
      by_cases hc : c = dotRune
      · subst hc
        have h1 : goToLower dotRune = dotRune := by decide
        simp [h1]
      · have h2 : goToLower c ≠ dotRune := fun hl => hc ((goToLower_eq_dot c).mp hl)
        simp [hc, h2]

/-! ## Concrete data for witness instantiations -/

/-- A concrete environment used by the witness instantiations (the oracles
are arbitrary; individual witnesses override the fields they constrain). -/
def baseEnv : Env where
  trimLower := fun s => s
  parseAddress := fun _ => { Username := "u", Domain := "b.c", Valid := true }
  isFreeDomain := fun _ => false
  isRoleAccount := fun _ => false
  isDisposable := fun _ => false
  domainToASCII := fun s => s
  runesOf := fun _ => [98, 46, 99]
  genericTLDs := [[99]]
  countryTLDs := []
  lookupMX := fun _ => .answered [{ Host := "mx.b.c", Pref := 10 }]
  smtpOutcome := fun _ _ => .ok { HostExists := true, FullInbox := false, CatchAll := false,
                                  Deliverable := true, Disabled := false }
  gravatarOutcome := fun _ => .ok { HasGravatar := false, GravatarUrl := "" }
  suggest := fun _ => ""

/-! ## C1: the reachability classifier -/

/-- C1: the reachability classifier is the pure function of
`(smtpCheckEnabled, SMTP result)` of the spec: disabled SMTP checking gives
`unknown`; else a deliverable result gives `yes`; else a catch-all result
gives `unknown`; otherwise `no`. -/
theorem calculateReachable_classifies (enabled : Bool) (s : SMTP) :
    (enabled = false → calculateReachable enabled s = reachableUnknown) ∧
    (enabled = true → s.Deliverable = true → calculateReachable enabled s = reachableYes) ∧
    (enabled = true → s.Deliverable = false → s.CatchAll = true →
      calculateReachable enabled s = reachableUnknown) ∧
    (enabled = true → s.Deliverable = false → s.CatchAll = false →
      calculateReachable enabled s = reachableNo) := by
  obtain ⟨hhost, hfull, hcatch, hdeliv, hdis⟩ := s
  cases enabled <;> cases hdeliv <;> cases hcatch <;> simp [calculateReachable]

/-- Witness for C1 at a concrete deliverable probe result. -/
theorem calculateReachable_classifies_witness :
    calculateReachable true ⟨true, false, false, true, false⟩ = reachableYes :=
  (calculateReachable_classifies true _).2.1 rfl rfl

/-! ## C5: CheckMX error behavior -/

/-- C5: when the domain resolves but advertises zero mail exchangers the
resolver hands `CheckMX` an empty record list with the "no such host" error
(Go reports NODATA this way; the repository's `TestCheckNoMxOK` expects
exactly that), and `CheckMX` fails with it — the spec's `NoMailExchanger`
failure; when DNS resolution itself fails, `CheckMX` fails with the
propagated lookup error — the spec's `HostLookupFailed` failure. -/
theorem checkMX_error_taxonomy (env : Env) (domain : String) (e : String) :
    (env.lookupMX (env.domainToASCII domain) = .noMailExchanger →
      CheckMX true env domain = .error ErrNoSuchHost) ∧
    (env.lookupMX (env.domainToASCII domain) = .hostLookupFailed e →
      CheckMX true env domain = .error e) := by
  constructor <;> intro h <;> simp [CheckMX, h, LookupOutcome.asPair]

/-- Witness for C5: one domain with zero advertised mail exchangers, one
whose resolution fails. -/
theorem checkMX_error_taxonomy_witness :
    CheckMX true { baseEnv with lookupMX := fun _ => .noMailExchanger } "b.c" =
      .error ErrNoSuchHost ∧
    CheckMX true { baseEnv with lookupMX := fun _ => .hostLookupFailed "dns timeout" } "b.c" =
      .error "dns timeout" :=
  ⟨(checkMX_error_taxonomy { baseEnv with lookupMX := fun _ => .noMailExchanger }
      "b.c" "dns timeout").1 rfl,
   (checkMX_error_taxonomy { baseEnv with lookupMX := fun _ => .hostLookupFailed "dns timeout" }
      "b.c" "dns timeout").2 rfl⟩

/-! ## C9: TopLevelDomainExists -/

/-- C9: `TopLevelDomainExists` returns false for every input without a dot;
for every input with a dot (equivalently, whenever some text follows a last
dot) the result is exactly membership of the lowercased text after the last
dot in the generic-TLD table or the country-code table, so the check is
case-insensitive and depends only on that suffix. -/
theorem tld_exists_suffix_membership (G C : List (List Nat)) (s : List Nat) :
    (dotRune ∉ s → TopLevelDomainExists G C s = false) ∧
    (dotRune ∈ s → (textAfterLastDot s).isSome = true) ∧
    (∀ t, textAfterLastDot s = some t →
      TopLevelDomainExists G C s =
        (G.contains (t.map goToLower) || C.contains (t.map goToLower))) := by
  refine ⟨?_, ?_, ?_⟩
  · intro h
    unfold TopLevelDomainExists
    rw [textAfterLastDot_map_goToLower, (textAfterLastDot_eq_none s).mpr h]
    rfl
  · intro h
    cases ht : textAfterLastDot s with
    | some t => rfl
    | none => exact absurd ((textAfterLastDot_eq_none s).mp ht) (by simp [h])
  · intro t ht
    unfold TopLevelDomainExists
    rw [textAfterLastDot_map_goToLower, ht]
    rfl

/-- Witness for C9: a dotless input, and the runes of `"EX.CH"` whose
lowercased TLD `ch` is looked up in a table containing it. -/
theorem tld_exists_suffix_membership_witness :
    TopLevelDomainExists [[99, 104]] [] [69, 88] = false ∧
    TopLevelDomainExists [[99, 104]] [] [69, 88, 46, 67, 72] =
      ([[99, 104]].contains ([67, 72].map goToLower) ||
       ([] : List (List Nat)).contains ([67, 72].map goToLower)) :=
  ⟨(tld_exists_suffix_membership [[99, 104]] [] [69, 88]).1 (by decide),
   (tld_exists_suffix_membership [[99, 104]] [] [69, 88, 46, 67, 72]).2.2 [67, 72] (by decide)⟩

/-! ## Field-effect lemmas for the four check closures -/

lemma mxTask_Reachable (v : Config) (env : Env) (d : String) (r : Result) :
    ((mxTask v env d).1 r).Reachable = r.Reachable := by
  cases hc : CheckMX v.mxCheckEnabled env d <;> simp [mxTask, hc]

lemma mxTask_Gravatar (v : Config) (env : Env) (d : String) (r : Result) :
    ((mxTask v env d).1 r).Gravatar = r.Gravatar := by
  cases hc : CheckMX v.mxCheckEnabled env d <;> simp [mxTask, hc]

lemma smtpTask_Reachable_disabled (v : Config) (env : Env) (d u : String) (r : Result)
    (hs : v.smtpCheckEnabled = false) :
    ((smtpTask v env d u).1 r).Reachable = reachableUnknown := by
  simp [smtpTask, CheckSMTP, hs, calculateReachable]

lemma smtpTask_Gravatar (v : Config) (env : Env) (d u : String) (r : Result) :
    ((smtpTask v env d u).1 r).Gravatar = r.Gravatar := by
  rcases hc : CheckSMTP v.smtpCheckEnabled env d u with ⟨s, e⟩
  cases e <;> simp [smtpTask, hc]

lemma gravatarTask_Reachable (v : Config) (env : Env) (em : String) (r : Result) :
    ((gravatarTask v env em).1 r).Reachable = r.Reachable := by
  rcases hc : CheckGravatar v.gravatarCheckEnabled env em with ⟨g, e⟩
  cases e <;> simp [gravatarTask, hc]

lemma gravatarTask_Gravatar_disabled (v : Config) (env : Env) (em : String) (r : Result)
    (hg : v.gravatarCheckEnabled = false) :
    ((gravatarTask v env em).1 r).Gravatar = none := by
  simp [gravatarTask, CheckGravatar, hg]

lemma suggestTask_Reachable (v : Config) (env : Env) (d : String) (r : Result) :
    ((suggestTask v env d).1 r).Reachable = r.Reachable := by
  simp only [suggestTask]
  split <;> rfl

lemma suggestTask_Gravatar (v : Config) (env : Env) (d : String) (r : Result) :
    ((suggestTask v env d).1 r).Gravatar = r.Gravatar := by
  simp only [suggestTask]
  split <;> rfl

/-- The state both runners leave behind is the four updates composed in
program order. -/
lemma applyTasks_eq (v : Config) (env : Env) (d u em : String) (r : Result) :
    (verifyTasks v env d u em).foldl (fun a t => t.1 a) r =
      (suggestTask v env d).1 ((gravatarTask v env em).1
        ((smtpTask v env d u).1 ((mxTask v env d).1 r))) := rfl

/-- The result component of `verifyRest`: always present — the untouched
record on the disposable short-circuit, the record after all four updates
otherwise (both runners apply the same updates). -/
lemma verifyRest_fst (uc : Bool) (v : Config) (env : Env) (order : List Nat)
    (d u em : String) (ret : Result) :
    (verifyRest uc v env order d u em ret).1 =
      some (if ret.Disposable then ret
            else (verifyTasks v env d u em).foldl (fun a t => t.1 a) ret) := by
  unfold verifyRest
  by_cases h : ret.Disposable
  · simp [h]
  · cases uc <;> simp [h, runSeq, runConc]

lemma verifyRest_Reachable (uc : Bool) (v : Config) (env : Env) (order : List Nat)
    (d u em : String) (ret r : Result) (hs : v.smtpCheckEnabled = false)
    (hret : ret.Reachable = reachableUnknown)
    (hr : (verifyRest uc v env order d u em ret).1 = some r) :
    r.Reachable = reachableUnknown := by
  rw [verifyRest_fst] at hr
  injection hr with hr
  subst hr
  by_cases h : ret.Disposable
  · simp [h, hret]
  · rw [if_neg h, applyTasks_eq, suggestTask_Reachable, gravatarTask_Reachable,
        smtpTask_Reachable_disabled v env d u _ hs]

lemma verifyRest_Gravatar (uc : Bool) (v : Config) (env : Env) (order : List Nat)
    (d u em : String) (ret r : Result) (hg : v.gravatarCheckEnabled = false)
    (hret : ret.Gravatar = none)
    (hr : (verifyRest uc v env order d u em ret).1 = some r) :
    r.Gravatar = none := by
  rw [verifyRest_fst] at hr
  injection hr with hr
  subst hr
  by_cases h : ret.Disposable
  · simp [h, hret]
  · rw [if_neg h, applyTasks_eq, suggestTask_Gravatar,
        gravatarTask_Gravatar_disabled v env em _ hg]

/-! ## C4: disabled SMTP checking forces reachability `unknown` -/

/-- C4: whenever SMTP checking is disabled, every `Verify` call that
returns a result reports `Reachable = "unknown"`, on every path (invalid
syntax, disposable short-circuit, check failures, and the normal path), for
every behavior of the external collaborators and every completion order. -/
theorem smtp_disabled_reachable_unknown (v : Config) (env : Env) (order : List Nat)
    (email : String) (r : Result) (hs : v.smtpCheckEnabled = false)
    (hr : (Verify v env order email).1 = some r) :
    r.Reachable = reachableUnknown := by
  unfold Verify VerifyWith at hr
  by_cases hv : (!(synOf env email).Valid : Bool)
  · rw [if_pos hv] at hr
    injection hr with hr
    subst hr
    rfl
  · rw [if_neg hv] at hr
    by_cases htd : v.TopLevelDomainDisabled
    · rw [if_pos htd] at hr
      exact verifyRest_Reachable _ v env order _ _ _ _ r hs rfl hr
    · rw [if_neg htd] at hr
      by_cases hx : TopLevelDomainExists env.genericTLDs env.countryTLDs
          (env.runesOf (idnaOf env email))
      · rw [if_pos hx] at hr
        exact verifyRest_Reachable _ v env order _ _ _ _ r hs rfl hr
      · rw [if_neg hx] at hr
        exact absurd hr (by simp)

/-- Witness for C4: a concrete configuration with SMTP checking disabled. -/
theorem smtp_disabled_reachable_unknown_witness :
    ((Verify ⟨true, false, true, false, false, true⟩ baseEnv [0, 1, 2, 3] "u@b.c").1.getD
      (initResult baseEnv "u@b.c")).Reachable = reachableUnknown :=
  smtp_disabled_reachable_unknown ⟨true, false, true, false, false, true⟩ baseEnv
    [0, 1, 2, 3] "u@b.c" _ rfl rfl

/-! ## C10: disabled gravatar checking -/

/-- C10: with gravatar checking disabled, `CheckGravatar` returns nil
record and nil error for every environment (in particular, independently of
the HTTP oracle: no network request can influence the outcome), and every
`Verify` call that returns a result leaves the `Gravatar` field nil. -/
theorem gravatar_disabled_nil (v : Config) (env : Env) :
    (∀ (env2 : Env) (email : String), CheckGravatar false env2 email = (none, none)) ∧
    (∀ (order : List Nat) (email : String) (r : Result), v.gravatarCheckEnabled = false →
      (Verify v env order email).1 = some r → r.Gravatar = none) := by
  constructor
  · intro env2 email
    rfl
  · intro order email r hg hr
    unfold Verify VerifyWith at hr
    by_cases hv : (!(synOf env email).Valid : Bool)
    · rw [if_pos hv] at hr
      injection hr with hr
      subst hr
      rfl
    · rw [if_neg hv] at hr
      by_cases htd : v.TopLevelDomainDisabled
      · rw [if_pos htd] at hr
        exact verifyRest_Gravatar _ v env order _ _ _ _ r hg rfl hr
      · rw [if_neg htd] at hr
        by_cases hx : TopLevelDomainExists env.genericTLDs env.countryTLDs
            (env.runesOf (idnaOf env email))
        · rw [if_pos hx] at hr
          exact verifyRest_Gravatar _ v env order _ _ _ _ r hg rfl hr
        · rw [if_neg hx] at hr
          exact absurd hr (by simp)

/-- Witness for C10 at a concrete disabled-gravatar configuration. -/
theorem gravatar_disabled_nil_witness :
    CheckGravatar false baseEnv "u@b.c" = (none, none) ∧
    ((Verify ⟨true, true, true, false, false, true⟩ baseEnv [0, 1, 2, 3] "u@b.c").1.getD
      (initResult baseEnv "u@b.c")).Gravatar = none :=
  ⟨(gravatar_disabled_nil ⟨true, true, true, false, false, true⟩ baseEnv).1 baseEnv "u@b.c",
   (gravatar_disabled_nil ⟨true, true, true, false, false, true⟩ baseEnv).2
     [0, 1, 2, 3] "u@b.c" _ rfl rfl⟩

/-! ## C8: invalid syntax short-circuits with a syntax-only result -/

/-- C8: for every address whose parse is invalid, `Verify` returns a
non-nil result carrying only the syntax failure — `Reachable` is
`unknown`, `SMTP` nil, `HasMxRecords` and `TLDExists` false, no error —
and the outcome depends on no downstream oracle (TLD, disposable, MX,
SMTP, gravatar, suggestion never run: the right-hand side mentions only
the normalizer and the parser). -/
theorem invalid_syntax_result (v : Config) (env : Env) (order : List Nat) (email : String)
    (h : (synOf env email).Valid = false) :
    Verify v env order email =
      (some { Email := normEmail env email, Reachable := reachableUnknown,
              Syn := synOf env email, SMTP := none, Gravatar := none, Suggestion := "",
              Disposable := false, RoleAccount := false, Free := false,
              HasMxRecords := false, TLDExists := false }, []) := by
  simp [Verify, VerifyWith, initResult, h]

/-- Witness for C8: the empty-local-part address `"@b.c"` under a parser
that rejects it. -/
theorem invalid_syntax_result_witness :
    Verify ⟨true, true, true, false, false, true⟩
      { baseEnv with parseAddress := fun _ => ⟨"", "", false⟩ } [0, 1, 2, 3] "@b.c" =
      (some ⟨"@b.c", reachableUnknown, ⟨"", "", false⟩, none, none, "",
             false, false, false, false, false⟩, []) :=
  invalid_syntax_result ⟨true, true, true, false, false, true⟩
    { baseEnv with parseAddress := fun _ => ⟨"", "", false⟩ } [0, 1, 2, 3] "@b.c" rfl

/-! ## C6: disposable domains short-circuit every probe -/

/-- C6: for every address whose domain is classified disposable (with the
TLD check enabled and passing), `Verify` returns immediately with only the
classification flags populated and nil error: `SMTP` nil, `HasMxRecords`
false, `Gravatar` nil, `Suggestion` empty — and the right-hand side
mentions no MX, SMTP or avatar oracle, so those checks cannot influence
(and are never reached by) the call. -/
theorem disposable_short_circuit (v : Config) (env : Env) (order : List Nat) (email : String)
    (hv : (synOf env email).Valid = true)
    (hd : env.isDisposable (synOf env email).Domain = true)
    (ht : v.TopLevelDomainDisabled = false)
    (hx : TopLevelDomainExists env.genericTLDs env.countryTLDs
      (env.runesOf (idnaOf env email)) = true) :
    Verify v env order email =
      (some { Email := normEmail env email, Reachable := reachableUnknown,
              Syn := synOf env email, SMTP := none, Gravatar := none, Suggestion := "",
              Disposable := true, RoleAccount := env.isRoleAccount (synOf env email).Username,
              Free := env.isFreeDomain (synOf env email).Domain,
              HasMxRecords := false, TLDExists := true }, []) := by
  simp [Verify, VerifyWith, verifyRest, classifiedResult, initResult, hv, hd, ht, hx]

/-- Witness for C6: a disposable domain with an existing TLD. -/
theorem disposable_short_circuit_witness :
    Verify ⟨true, true, true, false, false, false⟩
      { baseEnv with isDisposable := fun _ => true } [0, 1, 2, 3] "u@b.c" =
      (some ⟨"u@b.c", reachableUnknown, ⟨"u", "b.c", true⟩, none, none, "",
             true, false, false, false, true⟩, []) :=
  disposable_short_circuit ⟨true, true, true, false, false, false⟩
    { baseEnv with isDisposable := fun _ => true } [0, 1, 2, 3] "u@b.c" rfl rfl rfl rfl

/-! ## C7: unknown TLD fails the whole call -/

/-- C7: for every syntactically valid address whose top-level domain is
unknown, with the TLD check enabled, `Verify` returns a nil result and the
single error naming the offending domain (and thereby its top-level
domain), exactly the Go `fmt.Errorf("TLD domain %q does not exist", ...)`
message. -/
theorem tld_unknown_fails_whole_call (v : Config) (env : Env) (order : List Nat) (email : String)
    (hv : (synOf env email).Valid = true)
    (ht : v.TopLevelDomainDisabled = false)
    (hx : TopLevelDomainExists env.genericTLDs env.countryTLDs
      (env.runesOf (idnaOf env email)) = false) :
    Verify v env order email =
      (none, ["TLD domain \"" ++ idnaOf env email ++ "\" does not exist"]) := by
  simp [Verify, VerifyWith, hv, ht, hx]

/-- Witness for C7: empty TLD tables make `b.c`'s top-level domain
unknown; the call returns no result and the descriptive error. -/
theorem tld_unknown_fails_whole_call_witness :
    Verify ⟨true, true, true, false, false, false⟩
      { baseEnv with genericTLDs := [] } [0, 1, 2, 3] "u@b.c" =
      (none, ["TLD domain \"b.c\" does not exist"]) :=
  tld_unknown_fails_whole_call ⟨true, true, true, false, false, false⟩
    { baseEnv with genericTLDs := [] } [0, 1, 2, 3] "u@b.c" rfl rfl rfl

/-! ## Error lists of the two runners -/

lemma perm_eq_of_length_le_one {α : Type} {l₁ l₂ : List α} (hp : l₁.Perm l₂)
    (h : l₂.length ≤ 1) : l₁ = l₂ := by
  rcases l₂ with _ | ⟨a, _ | ⟨b, t⟩⟩
  · exact List.perm_nil.mp hp
  · exact List.perm_singleton.mp hp
  · simp at h

/-- With fewer than two enabled checks at most one closure can fail: the
disabled checks return nil errors before doing any work, and the suggestion
closure never fails. -/
lemma taskFailures_length_le (v : Config) (env : Env) (d u em : String)
    (h : enabledOptions v < 2) :
    ((verifyTasks v env d u em).filterMap (fun t => t.2)).length ≤ 1 := by
  obtain ⟨mx, smtp, ca, sug, grav, tld⟩ := v
  cases mx <;> cases smtp <;> cases grav <;> cases sug <;>
    simp only [enabledOptions] at h <;>
    try simp at h
  all_goals
    simp [verifyTasks, mxTask, smtpTask, gravatarTask, suggestTask,
          CheckMX, CheckSMTP, CheckGravatar, List.filterMap_cons]
  · rcases ho : env.gravatarOutcome em with e | g <;> simp [ho]
  · rcases ho : env.smtpOutcome d u with e | s <;> simp [ho]
  · rcases ho : env.lookupMX (env.domainToASCII d) with rs | _ | e <;>
      simp [LookupOutcome.asPair, ho]

lemma runConc_eq_runSeq (v : Config) (env : Env) (d u em : String) (r : Result)
    (order : List Nat) (h : enabledOptions v < 2) (hperm : order.Perm [0, 1, 2, 3]) :
    runConc (verifyTasks v env d u em) order r = runSeq (verifyTasks v env d u em) r := by
  unfold runConc runSeq
  refine congrArg (Prod.mk _) ?_
  have hflt : ([0, 1, 2, 3].filterMap fun i => (verifyTasks v env d u em).get? i) =
      verifyTasks v env d u em := rfl
  have hp : (order.filterMap fun i => (verifyTasks v env d u em).get? i).Perm
      (verifyTasks v env d u em) := by
    have hq := hperm.filterMap (fun i => (verifyTasks v env d u em).get? i)
    rwa [hflt] at hq
  have hperr := hp.filterMap (fun t => t.2)
  have hlen := taskFailures_length_le v env d u em h
  have heq := perm_eq_of_length_le_one hperr hlen
  rw [heq, List.take_of_length_le hlen]

lemma verifyRest_runner_eq (v : Config) (env : Env) (order : List Nat) (d u em : String)
    (ret : Result) (h : enabledOptions v < 2) (hperm : order.Perm [0, 1, 2, 3]) :
    verifyRest true v env order d u em ret = verifyRest false v env order d u em ret := by
  unfold verifyRest
  by_cases hd : ret.Disposable
  · simp [hd]
  · simp only [hd, Bool.false_eq_true, if_false]
    rw [runConc_eq_runSeq v env d u em ret order h hperm]
    simp

/-! ## C3: the sequential fallback is observably equivalent -/

/-- C3: with fewer than two enabled checks `Verify` takes the sequential
`noGroup` path (the `false`-runner), and for every input — every oracle
behavior and every completion order the concurrent runner could exhibit —
the concurrent path would produce the same (result, error) outcome. -/
theorem fewer_than_two_checks_sequential (v : Config) (env : Env) (order : List Nat)
    (email : String) (h : enabledOptions v < 2) (hperm : order.Perm [0, 1, 2, 3]) :
    Verify v env order email = VerifyWith false v env order email ∧
    VerifyWith true v env order email = VerifyWith false v env order email := by
  have hdec : decide (enabledOptions v > 1) = false := by
    simp only [decide_eq_false_iff_not]
    omega
  constructor
  · unfold Verify
    rw [hdec]
  · unfold VerifyWith
    by_cases hv : (!(synOf env email).Valid : Bool)
    · rw [if_pos hv, if_pos hv]
    · rw [if_neg hv, if_neg hv]
      by_cases htd : v.TopLevelDomainDisabled
      · rw [if_pos htd, if_pos htd, verifyRest_runner_eq v env order _ _ _ _ h hperm]
      · rw [if_neg htd, if_neg htd]
        by_cases hx : TopLevelDomainExists env.genericTLDs env.countryTLDs
            (env.runesOf (idnaOf env email))
        · rw [if_pos hx, if_pos hx, verifyRest_runner_eq v env order _ _ _ _ h hperm]
        · rw [if_neg hx, if_neg hx]

/-- Witness for C3: one enabled check (SMTP), a non-identity completion
order. -/
theorem fewer_than_two_checks_sequential_witness :
    (Verify ⟨false, true, true, false, false, true⟩ baseEnv [2, 0, 3, 1] "u@b.c" =
      VerifyWith false ⟨false, true, true, false, false, true⟩ baseEnv [2, 0, 3, 1] "u@b.c") ∧
    (VerifyWith true ⟨false, true, true, false, false, true⟩ baseEnv [2, 0, 3, 1] "u@b.c" =
      VerifyWith false ⟨false, true, true, false, false, true⟩ baseEnv [2, 0, 3, 1] "u@b.c") :=
  fewer_than_two_checks_sequential ⟨false, true, true, false, false, true⟩ baseEnv
    [2, 0, 3, 1] "u@b.c" (by decide) (by decide)

/-! ## C2: error aggregation -/

/-- Configuration of the two-failure run: MX and SMTP checks enabled (two
checks, so `Verify` fans out through the errgroup runner), gravatar and
suggestion disabled, TLD check disabled. -/
def cexConfig : Config := ⟨true, true, true, false, false, true⟩

/-- Environment of the two-failure run: the MX lookup and the SMTP probe
both fail. -/
def cexEnv : Env :=
  { baseEnv with
      lookupMX := fun _ => .hostLookupFailed "mx boom"
      smtpOutcome := fun _ _ => .error "smtp boom" }

/-- C2 counterexample: in this `Verify` call two checks fail — `CheckMX`
with "mx boom" and `CheckSMTP` with "smtp boom" — yet the returned error
carries only the first failure and the `CheckSMTP` cause is not exposed,
so the failures are not all combined into one composite error:
`errgroup.Wait` returns only the first non-nil error, and only the
sequential `noGroup` path joins them all. -/
theorem composite_error_counterexample :
    CheckMX cexConfig.mxCheckEnabled cexEnv "b.c" = .error "mx boom" ∧
    CheckSMTP cexConfig.smtpCheckEnabled cexEnv "b.c" "u" = (none, some "smtp boom") ∧
    (Verify cexConfig cexEnv [0, 1, 2, 3] "u@b.c").2 = ["CheckMX failed: mx boom"] ∧
    "CheckSMTP failed: smtp boom" ∉ (Verify cexConfig cexEnv [0, 1, 2, 3] "u@b.c").2 := by
  refine ⟨rfl, rfl, rfl, ?_⟩
  decide

/-- The error component of the concurrent path, with the disposable
short-circuit ruled out: the first failure in completion order. -/
lemma verifyRest_conc_snd (v : Config) (env : Env) (order : List Nat) (d u em : String)
    (ret : Result) (hdisp : ret.Disposable = false) :
    (verifyRest true v env order d u em ret).2 =
      ((order.filterMap fun i => (verifyTasks v env d u em).get? i).filterMap
        (fun t => t.2)).take 1 := by
  unfold verifyRest
  rw [if_neg (by simp [hdisp])]
  rfl

/-- The error component of the sequential path, with the disposable
short-circuit ruled out: all failures in program order. -/
lemma verifyRest_seq_snd (v : Config) (env : Env) (order : List Nat) (d u em : String)
    (ret : Result) (hdisp : ret.Disposable = false) :
    (verifyRest false v env order d u em ret).2 =
      (verifyTasks v env d u em).filterMap (fun t => t.2) := by
  unfold verifyRest
  rw [if_neg (by simp [hdisp])]
  rfl

/-- C2 amended: whenever `Verify` reaches its checks, any error is returned
alongside a non-nil, partially populated result; on the sequential path
(fewer than two enabled checks) the returned error is the join of all
failures in program order, but on the concurrent path at most one failure —
the first to complete — is surfaced, each surfaced message being one of the
actual failures. -/
theorem error_aggregation_amended (v : Config) (env : Env) (order : List Nat) (email : String)
    (hv : (synOf env email).Valid = true)
    (htld : v.TopLevelDomainDisabled = true ∨
      TopLevelDomainExists env.genericTLDs env.countryTLDs (env.runesOf (idnaOf env email)) = true)
    (hd : env.isDisposable (synOf env email).Domain = false) :
    (Verify v env order email).1 ≠ none ∧
    (enabledOptions v ≤ 1 → (Verify v env order email).2 = allFailures v env email) ∧
    (1 < enabledOptions v →
      (Verify v env order email).2.length ≤ 1 ∧
      ∀ e ∈ (Verify v env order email).2, e ∈ allFailures v env email) := by
  have hnv : ¬ (!(synOf env email).Valid : Bool) := by simp [hv]
  have hver : ∀ uc : Bool, ∃ ret : Result, ret.Disposable = false ∧
      VerifyWith uc v env order email =
        verifyRest uc v env order (synOf env email).Domain (synOf env email).Username
          (normEmail env email) ret := by
    intro uc
    by_cases htd : v.TopLevelDomainDisabled
    · refine ⟨classifiedResult env email, hd, ?_⟩
      unfold VerifyWith
      rw [if_neg hnv, if_pos htd]
    · have hx : TopLevelDomainExists env.genericTLDs env.countryTLDs
          (env.runesOf (idnaOf env email)) = true := htld.resolve_left (by simp [htd])
      refine ⟨{ classifiedResult env email with TLDExists := true }, hd, ?_⟩
      unfold VerifyWith
      rw [if_neg hnv, if_neg htd, if_pos hx]
  refine ⟨?_, ?_, ?_⟩
  · unfold Verify
    rcases hver (decide (enabledOptions v > 1)) with ⟨ret, hdisp, heq⟩
    rw [heq, verifyRest_fst]
    simp
  · intro hle
    have hdec : decide (enabledOptions v > 1) = false := by
      simp only [decide_eq_false_iff_not]
      omega
    unfold Verify
    rw [hdec]
    rcases hver false with ⟨ret, hdisp, heq⟩
    rw [heq, verifyRest_seq_snd v env order _ _ _ ret hdisp]
    rfl
  · intro hgt
    have hdec : decide (enabledOptions v > 1) = true := by simp [hgt]
    unfold Verify
    rw [hdec]
    rcases hver true with ⟨ret, hdisp, heq⟩
    rw [heq, verifyRest_conc_snd v env order _ _ _ ret hdisp]
    constructor
    · rw [List.length_take]
      exact min_le_left _ _
    · intro e he
      have he2 := List.take_subset 1 _ he
      rcases List.mem_filterMap.mp he2 with ⟨t, htp, hte⟩
      rcases List.mem_filterMap.mp htp with ⟨i, hio, hgi⟩
      exact List.mem_filterMap.mpr ⟨t, List.get?_mem hgi, hte⟩

/-- Witness for the amended C2 at a concrete concurrent run with two
failing checks. -/
theorem error_aggregation_amended_witness :
    (Verify cexConfig cexEnv [0, 1, 2, 3] "u@b.c").1 ≠ none ∧
    (enabledOptions cexConfig ≤ 1 →
      (Verify cexConfig cexEnv [0, 1, 2, 3] "u@b.c").2 = allFailures cexConfig cexEnv "u@b.c") ∧
    (1 < enabledOptions cexConfig →
      (Verify cexConfig cexEnv [0, 1, 2, 3] "u@b.c").2.length ≤ 1 ∧
      ∀ e ∈ (Verify cexConfig cexEnv [0, 1, 2, 3] "u@b.c").2,
        e ∈ allFailures cexConfig cexEnv "u@b.c") :=
  error_aggregation_amended cexConfig cexEnv [0, 1, 2, 3] "u@b.c" rfl (Or.inl rfl) rfl

end EmailVerifier
